import Mathlib

/-!
Verification of the child-frame height-notification script (`src/script.js`).

The script keeps an embedding (parent) document informed of the inner
document's rendered height.  Its core pieces, embedded shallowly below:

* `readHeight`        — line 68-70: `bodyHeight || docHeight`;
* `notifyParentHeightChange` — lines 132-155: guarded `postMessage` wrapped
  in try/catch;
* `updateHeightDisplay` — lines 63-109: the equality filter over `lastHeight`
  (line 62, initialised to 0), display update and notification;
* the DOMContentLoaded element check — lines 39-42;
* the toggle click handler — lines 177-266, including the collapse
  transitionend / 600 ms-fallback latch (lines 227-264);
* the MutationObserver debounce — lines 328-351 (300 ms window).

Heights are natural numbers (pixel counts).  Event-driven behaviour is
modelled as explicit state passing; scheduled callbacks become events or
scheduled-delay fields.
-/

/-- Environment of `notifyParentHeightChange`: whether `window.parent` is
non-null, whether it is the window itself, and whether the `postMessage`
dispatch would throw (e.g. the parent context navigated away). -/
structure NotifyEnv where
  hasParent : Bool
  parentIsSelf : Bool
  dispatchFails : Bool
deriving DecidableEq, Repr

/-- The message built at lines 138-141: `{ type: 'height-change', height }`. -/
structure HeightMessage where
  type : String
  height : Nat
deriving DecidableEq, Repr

/-- Line 62: `let lastHeight = 0;` — the sentinel before anything was reported. -/
def initialLastHeight : Nat := 0

/-- Lines 68-70: `const height = bodyHeight || docHeight;`.  JavaScript `||`
returns the left operand when it is truthy (a non-zero number), otherwise the
right operand. -/
def readHeight (bodyHeight docHeight : Nat) : Nat :=
  if bodyHeight ≠ 0 then bodyHeight else docHeight

/-- Line 146: `window.parent.postMessage(message, '*')`.  The raw dispatch may
throw; on success the message reaches the parent. -/
def postMessageToParent (env : NotifyEnv) (m : HeightMessage) :
    Except String (List HeightMessage) :=
  if env.dispatchFails then Except.error "postMessage failed" else Except.ok [m]

/-- Lines 137-151, the body of the `try` block of `notifyParentHeightChange`:
dispatch only when `window.parent && window.parent !== window`, otherwise log
and skip.  The result lists the messages actually dispatched. -/
def notifyBody (env : NotifyEnv) (height : Nat) : Except String (List HeightMessage) :=
  if env.hasParent && !env.parentIsSelf then
    postMessageToParent env { type := "height-change", height := height }
  else
    Except.ok []

/-- Lines 132-155: `notifyParentHeightChange(height)`.  The whole body sits in
`try { ... } catch (e) { console.error(...) }`, so a dispatch failure is
swallowed (logged) and the function returns normally with nothing dispatched. -/
def notifyParentHeightChange (env : NotifyEnv) (height : Nat) :
    Except String (List HeightMessage) :=
  match notifyBody env height with
  | Except.ok ms => Except.ok ms
  | Except.error _ => Except.ok []

/-- Extracts the messages dispatched by a notifier run. -/
def dispatchedOf : Except String (List HeightMessage) → List HeightMessage
  | Except.ok ms => ms
  | Except.error _ => []

/-- Observable outcome of one `updateHeightDisplay` call: the new value of
`lastHeight`, the heights passed to `notifyParentHeightChange` (line 100),
the messages actually dispatched to the parent, and the height written to the
`current-height` display element (line 96), `none` when skipped. -/
structure CheckResult where
  lastHeight : Nat
  sendCalls : List Nat
  dispatched : List HeightMessage
  displayedHeight : Option Nat
deriving DecidableEq, Repr

/-- Lines 63-109: `updateHeightDisplay`.  Reads the height, skips everything
when it equals `lastHeight` (lines 73-78), otherwise records the new
`lastHeight` (line 92), updates the display (line 96) and invokes
`notifyParentHeightChange` (line 100).  The `silent` flag only controls
logging, so it does not appear in the observable outcome. -/
def updateHeightDisplay (env : NotifyEnv) (bodyHeight docHeight lastHeight : Nat) :
    CheckResult :=
  let height := readHeight bodyHeight docHeight
  if height = lastHeight then
    { lastHeight := lastHeight, sendCalls := [], dispatched := [],
      displayedHeight := none }
  else
    { lastHeight := height, sendCalls := [height],
      dispatched := dispatchedOf (notifyParentHeightChange env height),
      displayedHeight := some height }

/-- Runs a sequence of height checks, each given as the pair
(body scrollHeight, documentElement scrollHeight) it reads, threading
`lastHeight` through; returns the final `lastHeight` and the concatenation of
all notifier invocations. -/
def runChecks (env : NotifyEnv) (reads : List (Nat × Nat)) (lastHeight : Nat) :
    Nat × List Nat :=
  match reads with
  | [] => (lastHeight, [])
  | (b, d) :: rest =>
    let r := updateHeightDisplay env b d lastHeight
    let rec2 := runChecks env rest r.lastHeight
    (rec2.1, r.sendCalls ++ rec2.2)

/-- Presence flags of the four elements looked up at lines 25-28. -/
structure PageElements where
  toggleButton : Bool
  expandableContent : Bool
  stateInfo : Bool
  currentHeightDisplay : Bool
deriving DecidableEq, Repr

/-- What the DOMContentLoaded handler armed before returning: the initial
100 ms height-update timer (line 284), the resize listener (line 299), the
MutationObserver (line 354), the 3 s periodic poll (line 390), and the toggle
click handler (line 177).  `errorLogged` records the `console.error` of
line 40. -/
structure InitResult where
  errorLogged : Bool
  startupTimerArmed : Bool
  resizeListenerArmed : Bool
  mutationObserverArmed : Bool
  pollArmed : Bool
  toggleHandlerArmed : Bool
deriving DecidableEq, Repr

/-- Lines 20-397: the DOMContentLoaded handler.  If any of the four elements
is missing it logs an error and returns at line 41, arming nothing.
Otherwise it arms every signal source, the MutationObserver only when the
facility exists (line 325). -/
def domContentLoaded (els : PageElements) (mutationObserverAvailable : Bool) :
    InitResult :=
  if !(els.toggleButton && els.expandableContent && els.stateInfo &&
      els.currentHeightDisplay) then
    { errorLogged := true, startupTimerArmed := false, resizeListenerArmed := false,
      mutationObserverArmed := false, pollArmed := false, toggleHandlerArmed := false }
  else
    { errorLogged := false, startupTimerArmed := true, resizeListenerArmed := true,
      mutationObserverArmed := mutationObserverAvailable, pollArmed := true,
      toggleHandlerArmed := true }

/-- Line 222: the 100 ms expansion delay before the height check. -/
def expandCheckDelayMs : Nat := 100

/-- Line 264: the 600 ms fallback timeout armed when collapsing. -/
def collapseFallbackDelayMs : Nat := 600

/-- Outcome of one click on the toggle button (lines 177-266): the flipped
`isExpanded` flag, the presentation applied, and which height-check path was
scheduled — a fixed delay when expanding, or a transitionend listener plus a
fallback timeout when collapsing. -/
structure ToggleResult where
  isExpanded : Bool
  contentHasExpandedClass : Bool
  buttonText : String
  statusText : String
  expandDelayMs : Option Nat
  collapseListenerArmed : Bool
  collapseFallbackMs : Option Nat
deriving DecidableEq, Repr

/-- Lines 177-266: the toggle click handler.  `isExpanded = !isExpanded`
(line 180) unconditionally, then either branch of lines 182-198 applies the
presentation and lines 215-265 schedule the height check. -/
def toggleClick (isExpanded : Bool) : ToggleResult :=
  let e := !isExpanded
  if e then
    { isExpanded := e, contentHasExpandedClass := true,
      buttonText := "Click to Collapse Content",
      statusText := "Content is expanded",
      expandDelayMs := some expandCheckDelayMs,
      collapseListenerArmed := false, collapseFallbackMs := none }
  else
    { isExpanded := e, contentHasExpandedClass := false,
      buttonText := "Click to Expand Content",
      statusText := "Content is collapsed",
      expandDelayMs := none,
      collapseListenerArmed := true,
      collapseFallbackMs := some collapseFallbackDelayMs }

/-- State while waiting for the collapse transition to settle
(lines 227-264): the `transitionEndFired` latch (line 227), whether the
fallback timeout is still pending (armed at line 255, cleared at line 238),
whether the transitionend listener is still attached (added at line 252,
removed at lines 242 and 259), and how many times `updateHeightDisplay` ran
on this path. -/
structure CollapseWait where
  transitionEndFired : Bool
  timeoutPending : Bool
  listenerAttached : Bool
  checksRun : Nat
deriving DecidableEq, Repr

/-- The state right after the collapsing branch of the click handler set up
the listener (line 252) and the fallback timeout (line 255). -/
def collapseInit : CollapseWait :=
  { transitionEndFired := false, timeoutPending := true,
    listenerAttached := true, checksRun := 0 }

/-- Events that can reach the collapse-settling machinery: a transitionend
event (whose target may or may not be `expandableContent`), or the fallback
timeout firing at its 600 ms deadline. -/
inductive CollapseEvent where
  | transitionEnd (targetIsContent : Bool)
  | fallbackTimeout
deriving DecidableEq, Repr

/-- One event delivered to the collapse-wait state.  `transitionEnd` runs
`handleTransitionEnd` (lines 231-249): only when the listener is attached,
the target is `expandableContent` and the latch is unset does it latch, clear
the timeout, remove the listener and run the check.  `fallbackTimeout`
(lines 255-264) fires only while pending; it runs the check unless the latch
is already set, and in either case the timer is spent. -/
def collapseStep (s : CollapseWait) (e : CollapseEvent) : CollapseWait :=
  match e with
  | CollapseEvent.transitionEnd target =>
    if s.listenerAttached && target && !s.transitionEndFired then
      { transitionEndFired := true, timeoutPending := false,
        listenerAttached := false, checksRun := s.checksRun + 1 }
    else s
  | CollapseEvent.fallbackTimeout =>
    if s.timeoutPending then
      if !s.transitionEndFired then
        { transitionEndFired := true, timeoutPending := false,
          listenerAttached := false, checksRun := s.checksRun + 1 }
      else
        { s with timeoutPending := false }
    else s

/-- Delivers a sequence of events to the freshly armed collapse-wait state. -/
def runCollapse (evs : List CollapseEvent) : CollapseWait :=
  List.foldl collapseStep collapseInit evs

/-- A complete run: after the listed events, the armed fallback timeout —
which the host fires at its deadline unless it was cleared — is delivered if
still pending. -/
def completeRun (evs : List CollapseEvent) : CollapseWait :=
  let s := runCollapse evs
  if s.timeoutPending then collapseStep s CollapseEvent.fallbackTimeout else s

/-- Line 350: the 300 ms mutation debounce window. -/
def mutationDebounceDelayMs : Nat := 300

/-- Lines 328-351: the debounced MutationObserver callback, abstracted over
time.  Given the pending debounce deadline (if any) and the arrival times of
the remaining mutation batches, returns the times at which the debounced
height check actually runs: a pending timer fires at its deadline if no
batch precedes it; a batch arriving earlier cancels it (line 333) and arms a
new timer 300 ms later (line 336); a timer still pending when events stop
fires at its deadline. -/
def debounceRun : Option Nat → List Nat → List Nat
  | some d, [] => [d]
  | none, [] => []
  | some d, t :: ts =>
    if d ≤ t then
      d :: debounceRun (some (t + mutationDebounceDelayMs)) ts
    else
      debounceRun (some (t + mutationDebounceDelayMs)) ts
  | none, t :: ts => debounceRun (some (t + mutationDebounceDelayMs)) ts

/-- Two consecutive mutation batches are in the debounce window when the
second arrives no earlier, and strictly before the window elapses. -/
def withinWindow (a b : Nat) : Prop := a ≤ b ∧ b < a + mutationDebounceDelayMs

instance : DecidableRel withinWindow :=
  fun a b => inferInstanceAs (Decidable (a ≤ b ∧ b < a + mutationDebounceDelayMs))

/-- The arrival time of the last event of the burst `t :: ts`. -/
def lastEventTime (t : Nat) (ts : List Nat) : Nat :=
  match ts with
  | [] => t
  | t2 :: ts2 => lastEventTime t2 ts2

/-- The inductive invariant of the collapse-settling latch: before the latch
is set no check has run, the listener is attached and the timeout pending;
once it is set exactly one check has run, the timeout is spent and the
listener removed. -/
def CollapseInv (s : CollapseWait) : Prop :=
  (s.transitionEndFired = false →
    s.timeoutPending = true ∧ s.listenerAttached = true ∧ s.checksRun = 0) ∧
  (s.transitionEndFired = true →
    s.timeoutPending = false ∧ s.listenerAttached = false ∧ s.checksRun = 1)

/-! Helper lemmas. -/

/-- Unfolding `updateHeightDisplay` when the filter passes. -/
lemma updateHeightDisplay_of_ne (env : NotifyEnv) (b d H : Nat)
    (h : readHeight b d ≠ H) :
    updateHeightDisplay env b d H =
      { lastHeight := readHeight b d, sendCalls := [readHeight b d],
        dispatched := dispatchedOf (notifyParentHeightChange env (readHeight b d)),
        displayedHeight := some (readHeight b d) } := by
  simp [updateHeightDisplay, h]

/-- Unfolding `updateHeightDisplay` when the filter blocks. -/
lemma updateHeightDisplay_of_eq (env : NotifyEnv) (b d H : Nat)
    (h : readHeight b d = H) :
    updateHeightDisplay env b d H =
      { lastHeight := H, sendCalls := [], dispatched := [],
        displayedHeight := none } := by
  simp [updateHeightDisplay, h]

/-- The notifier never returns an error, whatever the environment. -/
lemma notifyParentHeightChange_ok (env : NotifyEnv) (height : Nat) :
    notifyParentHeightChange env height =
      Except.ok (dispatchedOf (notifyParentHeightChange env height)) := by
  unfold notifyParentHeightChange
  cases h : notifyBody env height <;> simp [dispatchedOf, h]

/-- A run of checks that all read the same height `h` invokes the notifier
exactly once when `h` differs from the incoming `lastHeight` and never
otherwise, and leaves `lastHeight = h`. -/
lemma runChecks_stable (env : NotifyEnv) (h : Nat) (reads : List (Nat × Nat))
    (H : Nat) (hne : reads ≠ [])
    (hall : ∀ p ∈ reads, readHeight p.1 p.2 = h) :
    (runChecks env reads H).2 = (if h = H then [] else [h]) ∧
      (runChecks env reads H).1 = h := by
  induction reads generalizing H with
  | nil => exact absurd rfl hne
  | cons p rest ih =>
    obtain ⟨b, d⟩ := p
    have hbd : readHeight b d = h := hall (b, d) (List.mem_cons_self _ _)
    have hrest : ∀ q ∈ rest, readHeight q.1 q.2 = h :=
      fun q hq => hall q (List.mem_cons_of_mem _ hq)
    cases rest with
    | nil =>
      by_cases heq : h = H
      · have := updateHeightDisplay_of_eq env b d H (hbd.trans heq)
        simp [runChecks, this, heq]
      · have hne2 : readHeight b d ≠ H := by rw [hbd]; exact heq
        have := updateHeightDisplay_of_ne env b d H hne2
        simp [runChecks, this, hbd, heq]
    | cons q qs =>
      by_cases heq : h = H
      · have hupd := updateHeightDisplay_of_eq env b d H (hbd.trans heq)
        have := ih H (List.cons_ne_nil q qs) hrest
        simp [runChecks, hupd, heq] at this ⊢
        exact this
      · have hne2 : readHeight b d ≠ H := by rw [hbd]; exact heq
        have hupd := updateHeightDisplay_of_ne env b d H hne2
        have := ih h (List.cons_ne_nil q qs) hrest
        simp [runChecks, hupd, hbd, heq] at this ⊢
        exact this

lemma collapseInv_init : CollapseInv collapseInit := by
  constructor <;> intro h <;> simp [collapseInit] at h ⊢

lemma collapseInv_step (s : CollapseWait) (e : CollapseEvent)
    (hs : CollapseInv s) : CollapseInv (collapseStep s e) := by
  obtain ⟨f, p, l, n⟩ := s
  obtain ⟨h0, h1⟩ := hs
  cases e with
  | transitionEnd target =>
    cases f
    · obtain ⟨hp, hl, hn⟩ := h0 rfl
      subst hp; subst hl; subst hn
      cases target <;> simp [collapseStep, CollapseInv]
    · obtain ⟨hp, hl, hn⟩ := h1 rfl
      subst hp; subst hl; subst hn
      cases target <;> simp [collapseStep, CollapseInv]
  | fallbackTimeout =>
    cases f
    · obtain ⟨hp, hl, hn⟩ := h0 rfl
      subst hp; subst hl; subst hn
      simp [collapseStep, CollapseInv]
    · obtain ⟨hp, hl, hn⟩ := h1 rfl
      subst hp; subst hl; subst hn
      simp [collapseStep, CollapseInv]

lemma collapseInv_run (evs : List CollapseEvent) : CollapseInv (runCollapse evs) := by
  have : ∀ (l : List CollapseEvent) (s : CollapseWait), CollapseInv s →
      CollapseInv (List.foldl collapseStep s l) := by
    intro l
    induction l with
    | nil => intro s hs; exact hs
    | cons e l ih => intro s hs; exact ih _ (collapseInv_step s e hs)
  exact this evs collapseInit collapseInv_init

/-- While a debounce timer armed later than the next arrival is pending, a
burst whose consecutive events all fall within the debounce window produces a
single firing, at the last arrival plus the window. -/
lemma debounceRun_pending : ∀ (ts : List Nat) (d t : Nat), t < d →
    List.Chain' withinWindow (t :: ts) →
    debounceRun (some d) (t :: ts) =
      [lastEventTime t ts + mutationDebounceDelayMs] := by
  intro ts
  induction ts with
  | nil =>
    intro d t hlt _
    simp [debounceRun, Nat.not_le.mpr hlt, lastEventTime]
  | cons t2 ts2 ih =>
    intro d t hlt hch
    have hw : withinWindow t t2 := (List.chain'_cons.mp hch).1
    have hch2 : List.Chain' withinWindow (t2 :: ts2) := (List.chain'_cons.mp hch).2
    have hstep : debounceRun (some d) (t :: t2 :: ts2) =
        debounceRun (some (t + mutationDebounceDelayMs)) (t2 :: ts2) := by
      simp [debounceRun, Nat.not_le.mpr hlt]
    rw [hstep, ih (t + mutationDebounceDelayMs) t2 hw.2 hch2]
    simp [lastEventTime]

/-! Claim theorems. -/

/-- C1: from `LastReportedHeight = H`, a single height check that reads a
height different from `H` updates `lastHeight` to the read height, invokes
the notifier exactly once carrying that height, and — whenever a distinct
parent window exists and dispatch succeeds — dispatches exactly one
`height-change` message with that height. -/
theorem change_triggers_exactly_one (env : NotifyEnv) (b d H : Nat)
    (h : readHeight b d ≠ H) :
    (updateHeightDisplay env b d H).lastHeight = readHeight b d ∧
    (updateHeightDisplay env b d H).sendCalls = [readHeight b d] ∧
    (env.hasParent = true → env.parentIsSelf = false → env.dispatchFails = false →
      (updateHeightDisplay env b d H).dispatched =
        [{ type := "height-change", height := readHeight b d }]) := by
  rw [updateHeightDisplay_of_ne env b d H h]
  refine ⟨rfl, rfl, ?_⟩
  intro hp hs hf
  simp [dispatchedOf, notifyParentHeightChange, notifyBody, postMessageToParent,
    hp, hs, hf]

theorem change_triggers_exactly_one_witness :
    (updateHeightDisplay ⟨true, false, false⟩ 500 0 0).sendCalls = [500] ∧
    (updateHeightDisplay ⟨true, false, false⟩ 500 0 0).lastHeight = 500 :=
  ⟨(change_triggers_exactly_one ⟨true, false, false⟩ 500 0 0 (by decide)).2.1,
   (change_triggers_exactly_one ⟨true, false, false⟩ 500 0 0 (by decide)).1⟩

/-- C2 counterexample: a one-check sequence whose check reads height 0 from
the initial state (`lastHeight = 0`, nothing ever reported) sends zero
notifications, not exactly one, even with a parent window present. -/
theorem stable_sequence_counterexample :
    (runChecks ⟨true, false, false⟩ [(0, 0)] initialLastHeight).2 = [] ∧
    ¬ (runChecks ⟨true, false, false⟩ [(0, 0)] initialLastHeight).2.length = 1 := by
  decide

/-- C2 amended: for any nonempty sequence of checks all reading the same
height `h`, at most one notification is sent in total — exactly one
(carrying `h`) when `h` differs from `lastHeight` at the start of the
sequence and none otherwise — and `lastHeight` ends equal to `h`. -/
theorem stable_sequence_at_most_one (env : NotifyEnv) (h H : Nat)
    (reads : List (Nat × Nat)) (hne : reads ≠ [])
    (hall : ∀ p ∈ reads, readHeight p.1 p.2 = h) :
    (runChecks env reads H).2 = (if h = H then [] else [h]) ∧
    (runChecks env reads H).2.length ≤ 1 ∧
    (runChecks env reads H).1 = h := by
  obtain ⟨h1, h2⟩ := runChecks_stable env h reads H hne hall
  refine ⟨h1, ?_, h2⟩
  rw [h1]
  split <;> simp

theorem stable_sequence_at_most_one_witness :
    (runChecks ⟨true, false, false⟩ [(7, 0), (7, 0), (7, 0)] 0).2 = [7] ∧
    (runChecks ⟨true, false, false⟩ [(7, 0), (7, 0), (7, 0)] 0).1 = 7 := by
  have h := stable_sequence_at_most_one ⟨true, false, false⟩ 7 0
    [(7, 0), (7, 0), (7, 0)] (by decide) (by decide)
  exact ⟨by simpa using h.1, h.2.2⟩

/-- C3: on the collapse path, whatever sequence of transitionend /
fallback-timeout events is delivered, the height check runs at most once; in
a complete run (where the armed fallback timeout fires at its deadline unless
it was cleared) it runs exactly once; and a transitionend event whose target
is not the content container changes nothing at all. -/
theorem collapse_settles_exactly_once (evs : List CollapseEvent) :
    (runCollapse evs).checksRun ≤ 1 ∧
    (completeRun evs).checksRun = 1 ∧
    (∀ s : CollapseWait, collapseStep s (CollapseEvent.transitionEnd false) = s) := by
  obtain ⟨h0, h1⟩ := collapseInv_run evs
  refine ⟨?_, ?_, ?_⟩
  · cases hf : (runCollapse evs).transitionEndFired
    · simp [(h0 hf).2.2]
    · simp [(h1 hf).2.2]
  · unfold completeRun
    cases hf : (runCollapse evs).transitionEndFired
    · obtain ⟨hp, hl, hn⟩ := h0 hf
      simp [hp, collapseStep, hf, hn]
    · obtain ⟨hp, hl, hn⟩ := h1 hf
      simp [hp, hn]
  · intro s
    simp [collapseStep]

/-- C4: `notifyParentHeightChange` never raises to its caller: it always
returns normally; with no parent window, or a parent equal to the window
itself, it dispatches nothing and raises nothing; and when the dispatch
itself fails the failure is caught locally and nothing is dispatched. -/
theorem send_never_raises (env : NotifyEnv) (h : Nat) :
    (∃ ms, notifyParentHeightChange env h = Except.ok ms) ∧
    ((env.hasParent = false ∨ env.parentIsSelf = true) →
      notifyParentHeightChange env h = Except.ok []) ∧
    (env.dispatchFails = true → notifyParentHeightChange env h = Except.ok []) := by
  obtain ⟨p, s, f⟩ := env
  refine ⟨⟨_, notifyParentHeightChange_ok _ h⟩, ?_, ?_⟩ <;>
  · intro hc
    cases p <;> cases s <;> cases f <;>
      simp_all [notifyParentHeightChange, notifyBody, postMessageToParent]

theorem send_never_raises_witness :
    notifyParentHeightChange ⟨false, false, false⟩ 42 = Except.ok [] :=
  (send_never_raises ⟨false, false, false⟩ 42).2.1 (Or.inl rfl)

/-- C5: a burst of N ≥ 1 mutation batches, each arriving strictly within the
300 ms debounce window of the previous one, produces exactly one height
check, fired when the window has elapsed after the last batch. -/
theorem debounce_collapse (t : Nat) (ts : List Nat)
    (hch : List.Chain' withinWindow (t :: ts)) :
    debounceRun none (t :: ts) = [lastEventTime t ts + mutationDebounceDelayMs] := by
  cases ts with
  | nil => simp [debounceRun, lastEventTime]
  | cons t2 ts2 =>
    have hw : withinWindow t t2 := (List.chain'_cons.mp hch).1
    have hch2 : List.Chain' withinWindow (t2 :: ts2) := (List.chain'_cons.mp hch).2
    have hstep : debounceRun none (t :: t2 :: ts2) =
        debounceRun (some (t + mutationDebounceDelayMs)) (t2 :: ts2) := by
      simp [debounceRun]
    rw [hstep, debounceRun_pending ts2 (t + mutationDebounceDelayMs) t2 hw.2 hch2]
    simp [lastEventTime]

theorem debounce_collapse_witness : debounceRun none [0, 100, 250] = [550] := by
  have hch : List.Chain' withinWindow [0, 100, 250] := by
    refine List.chain'_cons.mpr ⟨?_, List.chain'_cons.mpr
      ⟨?_, List.chain'_singleton 250⟩⟩ <;> exact ⟨by decide, by decide⟩
  exact (debounce_collapse 0 [100, 250] hch).trans (by decide)

/-- C6 counterexample: with no parent window, a check that reads a new
height 500 from the initial state dispatches no notification at all, yet
still updates `lastHeight` from 0 to 500 — so `lastHeight` is not updated
only when a notification is actually sent. -/
theorem lastHeight_update_counterexample :
    (updateHeightDisplay ⟨false, false, false⟩ 500 0 initialLastHeight).dispatched = [] ∧
    (updateHeightDisplay ⟨false, false, false⟩ 500 0 initialLastHeight).lastHeight = 500 := by
  decide

/-- C6 amended: `lastHeight` is updated exactly when the equality filter
passes, i.e. when the check invokes the notifier: a check that invokes no
send leaves `lastHeight` unchanged, a check that does updates it to the read
height and passes exactly that height to the notifier, and every message
actually dispatched carries the new `lastHeight` (with type
`height-change`).  When no distinct parent window exists, or dispatch fails,
`lastHeight` is still updated although nothing is dispatched. -/
theorem lastHeight_update_iff_send (env : NotifyEnv) (b d H : Nat) :
    ((updateHeightDisplay env b d H).sendCalls = [] →
      (updateHeightDisplay env b d H).lastHeight = H) ∧
    ((updateHeightDisplay env b d H).sendCalls ≠ [] →
      (updateHeightDisplay env b d H).lastHeight = readHeight b d ∧
      (updateHeightDisplay env b d H).sendCalls =
        [(updateHeightDisplay env b d H).lastHeight]) ∧
    (∀ m ∈ (updateHeightDisplay env b d H).dispatched,
      m.height = (updateHeightDisplay env b d H).lastHeight ∧
        m.type = "height-change") := by
  by_cases h : readHeight b d = H
  · rw [updateHeightDisplay_of_eq env b d H h]
    exact ⟨fun _ => rfl, fun hc => absurd rfl hc, by simp⟩
  · rw [updateHeightDisplay_of_ne env b d H h]
    refine ⟨fun hc => by simp at hc, fun _ => ⟨rfl, rfl⟩, ?_⟩
    intro m hm
    obtain ⟨p, s, f⟩ := env
    cases p <;> cases s <;> cases f <;>
      simp_all [dispatchedOf, notifyParentHeightChange, notifyBody, postMessageToParent]

theorem lastHeight_update_iff_send_witness :
    (updateHeightDisplay ⟨true, false, false⟩ 5 0 0).lastHeight = 5 ∧
    (updateHeightDisplay ⟨true, false, false⟩ 5 0 0).sendCalls = [5] := by
  have h := (lastHeight_update_iff_send ⟨true, false, false⟩ 5 0 0).2.1 (by decide)
  exact ⟨h.1, h.2⟩

/-- C7: if any of the four required elements is missing at DOMContentLoaded,
the handler logs an error and returns before arming any signal source — no
startup timer, resize listener, mutation observer, periodic poll or toggle
handler. -/
theorem startup_missing_elements_abort (els : PageElements) (mo : Bool)
    (h : els.toggleButton = false ∨ els.expandableContent = false ∨
      els.stateInfo = false ∨ els.currentHeightDisplay = false) :
    domContentLoaded els mo =
      { errorLogged := true, startupTimerArmed := false,
        resizeListenerArmed := false, mutationObserverArmed := false,
        pollArmed := false, toggleHandlerArmed := false } := by
  obtain ⟨a, b, c, d⟩ := els
  rcases h with h | h | h | h <;> subst h <;> simp [domContentLoaded]

theorem startup_missing_elements_abort_witness :
    domContentLoaded ⟨false, true, true, true⟩ true =
      { errorLogged := true, startupTimerArmed := false,
        resizeListenerArmed := false, mutationObserverArmed := false,
        pollArmed := false, toggleHandlerArmed := false } :=
  startup_missing_elements_abort ⟨false, true, true, true⟩ true (Or.inl rfl)

/-- C8: every click on the toggle control flips `isExpanded`
unconditionally, and when the new state is expanded a height check is
scheduled after the fixed 100 ms delay (when it is collapsed, the
transitionend listener and the 600 ms fallback are armed instead). -/
theorem toggle_flips_and_schedules (prev : Bool) :
    (toggleClick prev).isExpanded = !prev ∧
    ((toggleClick prev).isExpanded = true →
      (toggleClick prev).expandDelayMs = some expandCheckDelayMs) ∧
    ((toggleClick prev).isExpanded = false →
      (toggleClick prev).expandDelayMs = none ∧
      (toggleClick prev).collapseListenerArmed = true ∧
      (toggleClick prev).collapseFallbackMs = some collapseFallbackDelayMs) := by
  cases prev <;> simp [toggleClick]

theorem toggle_flips_and_schedules_witness :
    (toggleClick false).isExpanded = true ∧
    (toggleClick false).expandDelayMs = some expandCheckDelayMs :=
  ⟨(toggle_flips_and_schedules false).1,
   (toggle_flips_and_schedules false).2.1 (by decide)⟩

/-- C9: the height read is a pure function of the two measurements: it
returns the body measurement when that is non-zero, otherwise the document
root measurement, and a resulting measurement of 0 is returned as-is. -/
theorem readHeight_prefers_body (b d : Nat) :
    (b ≠ 0 → readHeight b d = b) ∧ (b = 0 → readHeight b d = d) ∧
    readHeight 0 0 = 0 :=
  ⟨fun h => by simp [readHeight, h], fun h => by simp [readHeight, h], rfl⟩

theorem readHeight_prefers_body_witness :
    readHeight 3 5 = 3 ∧ readHeight 0 5 = 5 :=
  ⟨(readHeight_prefers_body 3 5).1 (by decide), (readHeight_prefers_body 0 5).2.1 rfl⟩

/-- C10: since `lastHeight` starts at 0 and the filter compares by equality,
a check that reads 0 in the initial state invokes no send, dispatches
nothing, and leaves `lastHeight` at 0; more generally any nonempty sequence
of checks all reading 0 from the initial state sends nothing. -/
theorem initial_zero_not_reported (env : NotifyEnv) (b d : Nat)
    (h : readHeight b d = 0) :
    (updateHeightDisplay env b d initialLastHeight).sendCalls = [] ∧
    (updateHeightDisplay env b d initialLastHeight).dispatched = [] ∧
    (updateHeightDisplay env b d initialLastHeight).lastHeight = initialLastHeight ∧
    (∀ reads : List (Nat × Nat), reads ≠ [] →
      (∀ p ∈ reads, readHeight p.1 p.2 = 0) →
      (runChecks env reads initialLastHeight).2 = []) := by
  have h0 : readHeight b d = initialLastHeight := h
  rw [updateHeightDisplay_of_eq env b d _ h0]
  refine ⟨rfl, rfl, rfl, ?_⟩
  intro reads hne hall
  have hst := runChecks_stable env 0 reads initialLastHeight hne hall
  simpa [initialLastHeight] using hst.1

theorem initial_zero_not_reported_witness :
    (updateHeightDisplay ⟨true, false, false⟩ 0 0 initialLastHeight).sendCalls = [] ∧
    (runChecks ⟨true, false, false⟩ [(0, 0), (0, 0)] initialLastHeight).2 = [] := by
  have h := initial_zero_not_reported ⟨true, false, false⟩ 0 0 (by decide)
  exact ⟨h.1, h.2.2.2 [(0, 0), (0, 0)] (by decide) (by decide)⟩
